import Mathlib

/-!
Shallow embedding of the HASNA license server
(src/hasna-license-server/index.js).

The server keeps two tables: `licenses` and `activation_logs`.  Each HTTP
handler is modelled as a pure function from the current server state (plus
the request body and the current time) to a response together with the new
server state.

Conventions of the embedding:
* JSON body fields are `Option String` (absent / present); JavaScript
  string falsiness (`undefined`, `null`, `""`) is `isFalsy`.
* Times are milliseconds since the epoch (`Nat`).  A SQL `DATE` value is a
  day count since the epoch (`Nat`); the pg driver materialises a `DATE`
  as a JavaScript `Date` at local midnight, modelled by `dateToMs` (the
  embedding works in a fixed time zone with offset 0).
* `Math.ceil (a / b)` on an exact integer quotient is `mathCeilDiv`.
* The French response messages are kept verbatim, except that the
  locale-formatted date appended to the expiry message is abstracted as
  `toString` of the day count.
-/

/-- One row of the `licenses` table. -/
structure License where
  license_key : String
  client_name : String
  client_email : Option String
  machine_id : Option String
  activated_at : Option Nat
  expires_at : Nat
  is_active : Bool
  created_at : Nat
  notes : Option String
  deriving DecidableEq

/-- One row of the `activation_logs` table. -/
structure LogEntry where
  license_key : String
  machine_id : String
  ip_address : Option String
  action : String
  success : Bool
  message : String
  deriving DecidableEq

/-- The persistent state of the server: both tables, in insertion order. -/
structure ServerState where
  licenses : List License
  logs : List LogEntry
  deriving DecidableEq

/-- JavaScript falsiness of an optional string body field
(`!x` is true for a missing field and for the empty string). -/
def isFalsy : Option String → Bool
  | none => true
  | some s => s == ""

/-- JavaScript truthiness of a nullable string column
(`x` is truthy when present and non-empty). -/
def strTruthy : Option String → Bool
  | none => false
  | some s => s != ""

/-- JavaScript `String.prototype.toUpperCase` (character-wise upper
case). -/
def jsToUpper (s : String) : String := String.mk (s.toList.map Char.toUpper)

/-- JavaScript `String.prototype.trim` (drop whitespace at both ends). -/
def jsTrim (s : String) : String :=
  String.mk
    (((s.toList.dropWhile Char.isWhitespace).reverse.dropWhile
        Char.isWhitespace).reverse)

/-- Key normalisation performed by the handlers:
`license_key.toUpperCase().trim()`. -/
def normKey (k : String) : String := jsTrim (jsToUpper k)

/-- Milliseconds in one day (`1000 * 60 * 60 * 24`). -/
def msPerDay : Nat := 86400000

/-- A `DATE` column value (day count) as the timestamp of its local
midnight, which is how `new Date(license.expires_at)` behaves. -/
def dateToMs (d : Nat) : Nat := d * msPerDay

/-- `Math.ceil (a / b)` for integers `a` and positive `b`:
the ceiling of the exact rational quotient. -/
def mathCeilDiv (a b : Int) : Int := -((-a).fdiv b)

/-- The lookup `SELECT * FROM licenses WHERE license_key = $1`
(first matching row). -/
def findLicense (st : ServerState) (nk : String) : Option License :=
  st.licenses.find? (fun l => l.license_key == nk)

/-- Build one `activation_logs` row (`logActivation` helper). -/
def logEntry (lk mid : String) (ip : Option String) (action : String)
    (success : Bool) (message : String) : LogEntry :=
  ⟨lk, mid, ip, action, success, message⟩

/-- Append one audit row (`INSERT INTO activation_logs ...`). -/
def addLog (st : ServerState) (e : LogEntry) : ServerState :=
  { st with logs := st.logs ++ [e] }

/-- The row update performed by the first activation:
`UPDATE licenses SET machine_id = $1, activated_at = CURRENT_TIMESTAMP
WHERE license_key = $2`, applied to one row. -/
def bindUpd (nk mid : String) (now : Nat) (l : License) : License :=
  if l.license_key == nk then
    { l with machine_id := some mid, activated_at := some now }
  else l

/-- Data object of a successful activation response. -/
structure ActivateData where
  client_name : String
  expires_at : Nat
  days_remaining : Int
  deriving DecidableEq

/-- Response of `POST /api/license/activate`. -/
structure ActivateResponse where
  status : Nat
  success : Bool
  message : String
  data : Option ActivateData
  deriving DecidableEq

/-- The `POST /api/license/activate` handler. -/
def activate (now : Nat) (st : ServerState)
    (license_key machine_id ip_address : Option String) :
    ActivateResponse × ServerState :=
  if isFalsy license_key || isFalsy machine_id then
    (⟨400, false, "Clé de licence et identifiant machine requis", none⟩, st)
  else
    let lk := license_key.getD ""
    let mid := machine_id.getD ""
    let nk := normKey lk
    match findLicense st nk with
    | none =>
        (⟨404, false, "Clé de licence invalide", none⟩,
         addLog st (logEntry lk mid ip_address "ACTIVATE" false "Clé invalide"))
    | some license =>
        if !license.is_active then
          (⟨403, false, "Cette licence a été désactivée", none⟩,
           addLog st (logEntry lk mid ip_address "ACTIVATE" false "Licence désactivée"))
        else if dateToMs license.expires_at < now then
          (⟨403, false,
             "Cette licence a expiré le " ++ toString license.expires_at, none⟩,
           addLog st (logEntry lk mid ip_address "ACTIVATE" false "Licence expirée"))
        else if strTruthy license.machine_id && license.machine_id != some mid then
          (⟨403, false,
             "Cette licence est déjà activée sur un autre ordinateur. Contactez le support pour la transférer.",
             none⟩,
           addLog st (logEntry lk mid ip_address "ACTIVATE" false "Déjà activée sur autre machine"))
        else
          let st1 :=
            if strTruthy license.machine_id then st
            else { st with licenses := st.licenses.map (bindUpd nk mid now) }
          let st2 := addLog st1 (logEntry lk mid ip_address "ACTIVATE" true "Activation réussie")
          (⟨200, true, "Licence activée avec succès",
             some ⟨license.client_name, license.expires_at,
               mathCeilDiv ((dateToMs license.expires_at : Int) - (now : Int)) (msPerDay : Int)⟩⟩,
           st2)

/-- Data object of a found verification response. -/
structure VerifyData where
  client_name : String
  expires_at : Nat
  days_remaining : Int
  is_active : Bool
  deriving DecidableEq

/-- Response of `POST /api/license/verify`. -/
structure VerifyResponse where
  status : Nat
  success : Bool
  valid : Option Bool
  message : Option String
  data : Option VerifyData
  deriving DecidableEq

/-- The `POST /api/license/verify` handler.  The state is threaded through
unchanged: the handler only runs a `SELECT`. -/
def verify (now : Nat) (st : ServerState)
    (license_key machine_id : Option String) : VerifyResponse × ServerState :=
  if isFalsy license_key || isFalsy machine_id then
    (⟨400, false, none, some "Clé de licence et identifiant machine requis", none⟩, st)
  else
    let lk := license_key.getD ""
    let mid := machine_id.getD ""
    match st.licenses.find?
        (fun l => l.license_key == normKey lk && l.machine_id == some mid) with
    | none =>
        (⟨200, false, some false, some "Licence non trouvée ou machine non autorisée", none⟩, st)
    | some license =>
        (⟨200, true,
           some (license.is_active && decide (now ≤ dateToMs license.expires_at)),
           none,
           some ⟨license.client_name, license.expires_at,
             mathCeilDiv ((dateToMs license.expires_at : Int) - (now : Int)) (msPerDay : Int),
             license.is_active⟩⟩, st)

/-- The alphabet of `generateLicenseKey`. -/
def licenseChars : String := "ABCDEFGHIJKLMNOPQRSTUVWXYZ0123456789"

/-- `chars.charAt(Math.floor(Math.random() * chars.length))` for one draw:
the draw is an index below 36. -/
def charFor (v : Fin 36) : Char := licenseChars.toList.getD v.val ' '

/-- One four-character segment of the generated key (inner loop of
`generateLicenseKey`); `r` enumerates the successive random draws. -/
def keySegment (r : Nat → Fin 36) (s : Nat) : String :=
  (List.range 4).foldl (fun seg i => seg.push (charFor (r (4 * s + i)))) ""

/-- JavaScript `Array.prototype.join(sep)`. -/
def joinSep (sep : String) : List String → String
  | [] => ""
  | [x] => x
  | x :: y :: xs => x ++ sep ++ joinSep sep (y :: xs)

/-- The `generateLicenseKey` helper, with the stream of random draws made
explicit. -/
def generateLicenseKey (r : Nat → Fin 36) : String :=
  "HASNA-" ++ joinSep "-" ((List.range 4).map (keySegment r))

/-- Data object of a successful create response. -/
structure CreateData where
  license_key : String
  client_name : String
  expires_at : Nat
  deriving DecidableEq

/-- Response of `POST /api/admin/license/create`. -/
structure CreateResponse where
  status : Nat
  success : Bool
  message : String
  data : Option CreateData
  deriving DecidableEq

/-- The `POST /api/admin/license/create` handler.  `cfg` is
`process.env.ADMIN_KEY` (absent when unset); `admin_key` is the body
field; `expires_at` is the parsed `DATE` body value (absent or empty
modelled as `none`).  The storage uniqueness constraint on `license_key`
surfaces as the 500 branch. -/
def createLicense (r : Nat → Fin 36) (now : Nat) (st : ServerState)
    (cfg admin_key client_name client_email : Option String)
    (expires_at : Option Nat) (notes : Option String) :
    CreateResponse × ServerState :=
  if admin_key != cfg then
    (⟨401, false, "Accès non autorisé", none⟩, st)
  else if isFalsy client_name || expires_at.isNone then
    (⟨400, false, "Nom du client et date d\x27expiration requis", none⟩, st)
  else
    let key := generateLicenseKey r
    let cn := client_name.getD ""
    let ea := expires_at.getD 0
    if st.licenses.any (fun l => l.license_key == key) then
      (⟨500, false, "Erreur lors de la création de la licence", none⟩, st)
    else
      (⟨200, true, "Licence créée avec succès", some ⟨key, cn, ea⟩⟩,
       { st with licenses := st.licenses ++
          [{ license_key := key, client_name := cn, client_email := client_email,
             machine_id := none, activated_at := none, expires_at := ea,
             is_active := true, created_at := now, notes := notes }] })

/-- Descending insertion for `ORDER BY created_at DESC`. -/
def insertByCreatedDesc (l : License) : List License → List License
  | [] => [l]
  | x :: xs =>
      if x.created_at ≤ l.created_at then l :: x :: xs
      else x :: insertByCreatedDesc l xs

/-- Sort the licenses by descending creation time (`ORDER BY created_at
DESC`). -/
def sortByCreatedDesc : List License → List License
  | [] => []
  | x :: xs => insertByCreatedDesc x (sortByCreatedDesc xs)

/-- Response of `GET /api/admin/licenses`. -/
structure ListResponse where
  status : Nat
  success : Bool
  message : Option String
  data : Option (List License)
  deriving DecidableEq

/-- The `GET /api/admin/licenses` handler; `admin_key` is the
`x-admin-key` header. -/
def listLicenses (st : ServerState) (cfg admin_key : Option String) :
    ListResponse × ServerState :=
  if admin_key != cfg then
    (⟨401, false, some "Accès non autorisé", none⟩, st)
  else
    (⟨200, true, none, some (sortByCreatedDesc st.licenses)⟩, st)

/-- Response of `POST /api/admin/license/reset-machine`. -/
structure ResetResponse where
  status : Nat
  success : Bool
  message : String
  deriving DecidableEq

/-- The row update of reset-machine applied to one row:
`UPDATE licenses SET machine_id = NULL WHERE license_key = $1`. -/
def resetUnbind (nk : String) (l : License) : License :=
  if l.license_key == nk then { l with machine_id := none } else l

/-- The `POST /api/admin/license/reset-machine` handler.  A missing
`license_key` body field makes `license_key.toUpperCase()` throw a
`TypeError`, which the surrounding catch converts into the generic 500
response, leaving the table untouched: the `none` branch. -/
def resetMachine (st : ServerState) (cfg admin_key license_key : Option String) :
    ResetResponse × ServerState :=
  if admin_key != cfg then
    (⟨401, false, "Accès non autorisé"⟩, st)
  else
    match license_key with
    | none => (⟨500, false, "Erreur serveur"⟩, st)
    | some k =>
        let nk := normKey k
        if st.licenses.any (fun l => l.license_key == nk) then
          (⟨200, true,
             "Machine réinitialisée. La licence peut être activée sur un nouveau PC."⟩,
           { st with licenses := st.licenses.map (resetUnbind nk) })
        else
          (⟨404, false, "Licence non trouvée"⟩, st)

/-! ## Shared fixtures and helper lemmas -/

/-- A fresh, active license used as a concrete test fixture. -/
def sampleLicense : License :=
  { license_key := "HASNA-AAAA-BBBB-CCCC-DDDD", client_name := "Moulin Test",
    client_email := none, machine_id := none, activated_at := none,
    expires_at := 20, is_active := true, created_at := 0, notes := none }

/-- A server state holding only `sampleLicense`. -/
def sampleState : ServerState := { licenses := [sampleLicense], logs := [] }

/-- The fixture license after being bound to machine `PC-1`. -/
def boundLicense : License :=
  { sampleLicense with machine_id := some "PC-1", activated_at := some 5 }

/-- A server state holding only `boundLicense`. -/
def boundState : ServerState := { licenses := [boundLicense], logs := [] }

theorem addLog_licenses (st : ServerState) (e : LogEntry) :
    (addLog st e).licenses = st.licenses := rfl

theorem findLicense_addLog (st : ServerState) (e : LogEntry) (nk : String) :
    findLicense (addLog st e) nk = findLicense st nk := rfl

theorem find?_map_key (f : License → License)
    (hf : ∀ x, (f x).license_key = x.license_key) (nk : String) :
    ∀ l : List License,
      (l.map f).find? (fun a => a.license_key == nk) =
        (l.find? (fun a => a.license_key == nk)).map f := by
  intro l
  induction l with
  | nil => rfl
  | cons x xs ih =>
      by_cases h : (x.license_key == nk) = true
      · simp only [List.map_cons, List.find?_cons, hf, h]
        rfl
      · rw [Bool.not_eq_true] at h
        simp only [List.map_cons, List.find?_cons, hf, h, ih]

theorem bindUpd_key (nk mid : String) (now : Nat) (l : License) :
    (bindUpd nk mid now l).license_key = l.license_key := by
  unfold bindUpd
  split <;> rfl

theorem activate_unbound_success (now : Nat) (st : ServerState) (k m : String)
    (ip : Option String) (lic : License)
    (hk : k ≠ "") (hm : m ≠ "")
    (hfind : findLicense st (normKey k) = some lic)
    (hactive : lic.is_active = true)
    (hexp : now ≤ dateToMs lic.expires_at)
    (hunbound : lic.machine_id = none) :
    activate now st (some k) (some m) ip =
      (⟨200, true, "Licence activée avec succès",
         some ⟨lic.client_name, lic.expires_at,
           mathCeilDiv ((dateToMs lic.expires_at : Int) - (now : Int)) (msPerDay : Int)⟩⟩,
       addLog { st with licenses := st.licenses.map (bindUpd (normKey k) m now) }
         (logEntry k m ip "ACTIVATE" true "Activation réussie")) := by
  have hnl : ¬ (dateToMs lic.expires_at < now) := Nat.not_lt.mpr hexp
  simp [activate, isFalsy, hk, hm, hfind, hactive, hnl, strTruthy, hunbound]

theorem activate_bound_same (now : Nat) (st : ServerState) (k m : String)
    (ip : Option String) (lic : License)
    (hk : k ≠ "") (hm : m ≠ "")
    (hfind : findLicense st (normKey k) = some lic)
    (hactive : lic.is_active = true)
    (hexp : now ≤ dateToMs lic.expires_at)
    (hbound : lic.machine_id = some m) :
    activate now st (some k) (some m) ip =
      (⟨200, true, "Licence activée avec succès",
         some ⟨lic.client_name, lic.expires_at,
           mathCeilDiv ((dateToMs lic.expires_at : Int) - (now : Int)) (msPerDay : Int)⟩⟩,
       addLog st (logEntry k m ip "ACTIVATE" true "Activation réussie")) := by
  have hnl : ¬ (dateToMs lic.expires_at < now) := Nat.not_lt.mpr hexp
  simp [activate, isFalsy, hk, hm, hfind, hactive, hnl, strTruthy, hbound]

theorem activate_bound_other (now : Nat) (st : ServerState) (k m b : String)
    (ip : Option String) (lic : License)
    (hk : k ≠ "") (hm : m ≠ "")
    (hfind : findLicense st (normKey k) = some lic)
    (hactive : lic.is_active = true)
    (hexp : now ≤ dateToMs lic.expires_at)
    (hbound : lic.machine_id = some b) (hb : b ≠ "") (hbm : b ≠ m) :
    activate now st (some k) (some m) ip =
      (⟨403, false,
         "Cette licence est déjà activée sur un autre ordinateur. Contactez le support pour la transférer.",
         none⟩,
       addLog st (logEntry k m ip "ACTIVATE" false "Déjà activée sur autre machine")) := by
  have hnl : ¬ (dateToMs lic.expires_at < now) := Nat.not_lt.mpr hexp
  simp [activate, isFalsy, hk, hm, hfind, hactive, hnl, strTruthy, hbound, hb, hbm]

/-- The not-found / wrong-machine response of verify. -/
def verifyNotFound : VerifyResponse :=
  ⟨200, false, some false, some "Licence non trouvée ou machine non autorisée", none⟩

/-- Claim C6: verify is read-only: for every input it mutates no license
record and writes no activation-log entry, whether the license is found or
not, valid or not. -/
theorem verify_read_only (now : Nat) (st : ServerState)
    (license_key machine_id : Option String) :
    (verify now st license_key machine_id).2 = st := by
  simp only [verify]
  split
  · rfl
  · split <;> rfl

/-- A character of the key alphabet, whatever the draw. -/
theorem charFor_mem : ∀ v : Fin 36, charFor v ∈ licenseChars.toList := by decide

/-- One hyphen-separated group of a well-shaped key: four characters, each
from the 36-character alphabet. -/
def IsKeyGroup (g : String) : Prop :=
  g.length = 4 ∧ ∀ c ∈ g.toList, c ∈ licenseChars.toList

/-- The fixed shape `HASNA-XXXX-XXXX-XXXX-XXXX` demanded by the spec: the
literal prefix `HASNA` followed by four hyphen-separated groups of four
characters over `[A-Z0-9]`. -/
def HasLicenseKeyShape (s : String) : Prop :=
  ∃ g1 g2 g3 g4 : String,
    IsKeyGroup g1 ∧ IsKeyGroup g2 ∧ IsKeyGroup g3 ∧ IsKeyGroup g4 ∧
    s = "HASNA-" ++ g1 ++ "-" ++ g2 ++ "-" ++ g3 ++ "-" ++ g4

theorem keySegment_eq (r : Nat → Fin 36) (s : Nat) :
    keySegment r s =
      String.mk [charFor (r (4 * s)), charFor (r (4 * s + 1)),
        charFor (r (4 * s + 2)), charFor (r (4 * s + 3))] := rfl

theorem keySegment_isGroup (r : Nat → Fin 36) (s : Nat) :
    IsKeyGroup (keySegment r s) := by
  rw [keySegment_eq]
  constructor
  · rfl
  · intro c hc
    simp only [String.toList, String.data, List.mem_cons, List.not_mem_nil,
      or_false] at hc
    rcases hc with h | h | h | h <;> (rw [h]; exact charFor_mem _)

/-- Claim C8: every key produced by the key generator matches the fixed
shape `HASNA-XXXX-XXXX-XXXX-XXXX` with each `X` drawn from the 36-character
alphabet `[A-Z0-9]`. -/
theorem generateLicenseKey_shape (r : Nat → Fin 36) :
    HasLicenseKeyShape (generateLicenseKey r) := by
  refine ⟨keySegment r 0, keySegment r 1, keySegment r 2, keySegment r 3,
    keySegment_isGroup r 0, keySegment_isGroup r 1, keySegment_isGroup r 2,
    keySegment_isGroup r 3, ?_⟩
  show "HASNA-" ++ joinSep "-" ((List.range 4).map (keySegment r)) = _
  have h4 : (List.range 4).map (keySegment r) =
      [keySegment r 0, keySegment r 1, keySegment r 2, keySegment r 3] := rfl
  rw [h4]
  simp only [joinSep, String.append_assoc]

/-- Claim C10: reset-machine with the `license_key` body field absent does
not return a validation error: the unconditional `toUpperCase` on the
missing value throws, the generic catch answers 500, and the license table
is unchanged. -/
theorem resetMachine_missing_key_crash (st : ServerState) (cfg ak : Option String)
    (hak : ak = cfg) :
    resetMachine st cfg ak none = (⟨500, false, "Erreur serveur"⟩, st) := by
  subst hak
  simp [resetMachine]

theorem resetMachine_missing_key_crash_witness :
    resetMachine sampleState (some "SECRET") (some "SECRET") none =
      (⟨500, false, "Erreur serveur"⟩, sampleState) :=
  resetMachine_missing_key_crash sampleState (some "SECRET") (some "SECRET") rfl

/-- Claim C4: every administrative operation (create, list, reset-machine)
with a caller secret different from the configured one answers 401 with the
state (licenses and audit log) untouched, whatever the other inputs; and
the authorization check passes exactly when the caller secret strictly
equals the configured secret (a passing call never answers 401). -/
theorem admin_secret_gate (r : Nat → Fin 36) (now : Nat) (st : ServerState)
    (cfg ak cn ce : Option String) (ea : Option Nat) (nts lk : Option String) :
    (ak ≠ cfg →
      createLicense r now st cfg ak cn ce ea nts =
          (⟨401, false, "Accès non autorisé", none⟩, st) ∧
      listLicenses st cfg ak = (⟨401, false, some "Accès non autorisé", none⟩, st) ∧
      resetMachine st cfg ak lk = (⟨401, false, "Accès non autorisé"⟩, st))
    ∧ (ak = cfg →
      (createLicense r now st cfg ak cn ce ea nts).1.status ≠ 401 ∧
      (listLicenses st cfg ak).1.status ≠ 401 ∧
      (resetMachine st cfg ak lk).1.status ≠ 401) := by
  constructor
  · intro h
    refine ⟨?_, ?_, ?_⟩ <;>
      simp [createLicense, listLicenses, resetMachine, h]
  · intro h
    subst h
    refine ⟨?_, ?_, ?_⟩
    · simp only [createLicense, bne_self_eq_false, Bool.false_eq_true,
        if_false]
      split
      · simp
      · split <;> simp
    · simp [listLicenses]
    · simp only [resetMachine, bne_self_eq_false, Bool.false_eq_true,
        if_false]
      split
      · simp
      · split <;> simp

theorem admin_secret_gate_witness :
    (createLicense (fun _ => (0 : Fin 36)) 0 sampleState (some "SECRET")
        (some "WRONG") (some "Moulin Test") none (some 20) none =
      (⟨401, false, "Accès non autorisé", none⟩, sampleState)) ∧
    (listLicenses sampleState (some "SECRET") (some "WRONG") =
      (⟨401, false, some "Accès non autorisé", none⟩, sampleState)) ∧
    (resetMachine sampleState (some "SECRET") (some "WRONG")
        (some "HASNA-AAAA-BBBB-CCCC-DDDD") =
      (⟨401, false, "Accès non autorisé"⟩, sampleState)) :=
  (admin_secret_gate (fun _ => (0 : Fin 36)) 0 sampleState (some "SECRET")
    (some "WRONG") (some "Moulin Test") none (some 20) none
    (some "HASNA-AAAA-BBBB-CCCC-DDDD")).1 (by decide)

/-- Claim C7: authorized reset-machine with a matching key answers 200 and
sets `machine_id` to null on the matched rows while leaving every other
field of every row — and the audit log — unchanged; with no matching key it
answers 404 and changes nothing. -/
theorem resetMachine_frame (st : ServerState) (cfg ak : Option String) (k : String)
    (hak : ak = cfg) :
    ((∃ l ∈ st.licenses, l.license_key = normKey k) →
      (resetMachine st cfg ak (some k)).1 =
        ⟨200, true,
          "Machine réinitialisée. La licence peut être activée sur un nouveau PC."⟩ ∧
      (resetMachine st cfg ak (some k)).2.licenses =
        st.licenses.map (resetUnbind (normKey k)) ∧
      (resetMachine st cfg ak (some k)).2.logs = st.logs)
    ∧ ((∀ l ∈ st.licenses, l.license_key ≠ normKey k) →
      (resetMachine st cfg ak (some k)).1 = ⟨404, false, "Licence non trouvée"⟩ ∧
      (resetMachine st cfg ak (some k)).2 = st)
    ∧ (∀ l : License,
      (resetUnbind (normKey k) l).license_key = l.license_key ∧
      (resetUnbind (normKey k) l).client_name = l.client_name ∧
      (resetUnbind (normKey k) l).client_email = l.client_email ∧
      (resetUnbind (normKey k) l).activated_at = l.activated_at ∧
      (resetUnbind (normKey k) l).expires_at = l.expires_at ∧
      (resetUnbind (normKey k) l).is_active = l.is_active ∧
      (resetUnbind (normKey k) l).created_at = l.created_at ∧
      (resetUnbind (normKey k) l).notes = l.notes ∧
      (resetUnbind (normKey k) l).machine_id =
        (if l.license_key = normKey k then none else l.machine_id)) := by
  subst hak
  refine ⟨?_, ?_, ?_⟩
  · intro h
    have hany : (st.licenses.any (fun l => l.license_key == normKey k)) = true := by
      rw [List.any_eq_true]
      obtain ⟨l, hl, hkey⟩ := h
      exact ⟨l, hl, by simpa using hkey⟩
    refine ⟨?_, ?_, ?_⟩ <;> simp [resetMachine, hany]
  · intro h
    have hany : (st.licenses.any (fun l => l.license_key == normKey k)) = false := by
      rw [Bool.eq_false_iff]
      intro hc
      rw [List.any_eq_true] at hc
      obtain ⟨l, hl, hkey⟩ := hc
      exact h l hl (by simpa using hkey)
    refine ⟨?_, ?_⟩ <;> simp [resetMachine, hany]
  · intro l
    unfold resetUnbind
    by_cases h : l.license_key = normKey k <;> simp [h]

theorem resetMachine_frame_witness :
    (resetMachine boundState (some "SECRET") (some "SECRET")
        (some "HASNA-AAAA-BBBB-CCCC-DDDD")).1 =
      ⟨200, true,
        "Machine réinitialisée. La licence peut être activée sur un nouveau PC."⟩ ∧
    (resetMachine boundState (some "SECRET") (some "SECRET")
        (some "HASNA-AAAA-BBBB-CCCC-DDDD")).2.licenses =
      boundState.licenses.map (resetUnbind (normKey "HASNA-AAAA-BBBB-CCCC-DDDD")) ∧
    (resetMachine boundState (some "SECRET") (some "SECRET")
        (some "HASNA-AAAA-BBBB-CCCC-DDDD")).2.logs = boundState.logs :=
  (resetMachine_frame boundState (some "SECRET") (some "SECRET")
    "HASNA-AAAA-BBBB-CCCC-DDDD" rfl).1 (by decide)

/-- Claim C5: verify looks up by the (key, machine) pair, so when every
license carrying the requested key is bound to a different machine the
response is exactly the response for an unknown key: the caller cannot
distinguish the two cases. -/
theorem verify_wrong_machine_indistinguishable (now : Nat) (st : ServerState)
    (k m : String) (hk : k ≠ "") (hm : m ≠ "") :
    ((∀ l ∈ st.licenses, l.license_key = normKey k → l.machine_id ≠ some m) →
      (verify now st (some k) (some m)).1 = verifyNotFound)
    ∧ ((∀ l ∈ st.licenses, l.license_key ≠ normKey k) →
      (verify now st (some k) (some m)).1 = verifyNotFound) := by
  constructor
  · intro h
    have hnone : st.licenses.find?
        (fun l => l.license_key == normKey k && l.machine_id == some m) = none := by
      rw [List.find?_eq_none]
      intro x hx
      simp only [Bool.and_eq_true, beq_iff_eq, not_and]
      intro h1 h2
      exact h x hx h1 h2
    simp [verify, isFalsy, hk, hm, hnone, verifyNotFound]
  · intro h
    have hnone : st.licenses.find?
        (fun l => l.license_key == normKey k && l.machine_id == some m) = none := by
      rw [List.find?_eq_none]
      intro x hx
      simp only [Bool.and_eq_true, beq_iff_eq, not_and]
      intro h1
      exact absurd h1 (h x hx)
    simp [verify, isFalsy, hk, hm, hnone, verifyNotFound]

theorem verify_wrong_machine_indistinguishable_witness :
    (verify 0 boundState (some "HASNA-AAAA-BBBB-CCCC-DDDD") (some "PC-2")).1 =
      verifyNotFound :=
  (verify_wrong_machine_indistinguishable 0 boundState
    "HASNA-AAAA-BBBB-CCCC-DDDD" "PC-2" (by decide) (by decide)).1 (by decide)

/-- Claim C3: activate's decision table is evaluated in order with first
match winning — unknown key 404, deactivated 403, expired 403, bound to a
different machine 403 — and every one of these non-success branches
appends exactly one audit entry and leaves the license table unchanged. -/
theorem activate_decision_table (now : Nat) (st : ServerState) (k m : String)
    (ip : Option String) (hk : k ≠ "") (hm : m ≠ "") :
    (findLicense st (normKey k) = none →
      activate now st (some k) (some m) ip =
        (⟨404, false, "Clé de licence invalide", none⟩,
         addLog st (logEntry k m ip "ACTIVATE" false "Clé invalide")))
    ∧ (∀ lic, findLicense st (normKey k) = some lic → lic.is_active = false →
      activate now st (some k) (some m) ip =
        (⟨403, false, "Cette licence a été désactivée", none⟩,
         addLog st (logEntry k m ip "ACTIVATE" false "Licence désactivée")))
    ∧ (∀ lic, findLicense st (normKey k) = some lic → lic.is_active = true →
        dateToMs lic.expires_at < now →
      activate now st (some k) (some m) ip =
        (⟨403, false, "Cette licence a expiré le " ++ toString lic.expires_at, none⟩,
         addLog st (logEntry k m ip "ACTIVATE" false "Licence expirée")))
    ∧ (∀ lic b, findLicense st (normKey k) = some lic → lic.is_active = true →
        now ≤ dateToMs lic.expires_at → lic.machine_id = some b → b ≠ "" → b ≠ m →
      activate now st (some k) (some m) ip =
        (⟨403, false,
           "Cette licence est déjà activée sur un autre ordinateur. Contactez le support pour la transférer.",
           none⟩,
         addLog st (logEntry k m ip "ACTIVATE" false "Déjà activée sur autre machine"))) := by
  refine ⟨?_, ?_, ?_, ?_⟩
  · intro hfind
    simp [activate, isFalsy, hk, hm, hfind]
  · intro lic hfind hinactive
    simp [activate, isFalsy, hk, hm, hfind, hinactive]
  · intro lic hfind hactive hlt
    simp [activate, isFalsy, hk, hm, hfind, hactive, hlt]
  · intro lic b hfind hactive hexp hbound hb hbm
    exact activate_bound_other now st k m b ip lic hk hm hfind hactive hexp hbound hb hbm

theorem activate_decision_table_witness :
    activate 0 sampleState (some "HASNA-ZZZZ-ZZZZ-ZZZZ-ZZZZ") (some "PC-1") none =
      (⟨404, false, "Clé de licence invalide", none⟩,
       addLog sampleState
         (logEntry "HASNA-ZZZZ-ZZZZ-ZZZZ-ZZZZ" "PC-1" none "ACTIVATE" false "Clé invalide")) :=
  (activate_decision_table 0 sampleState "HASNA-ZZZZ-ZZZZ-ZZZZ-ZZZZ" "PC-1" none
    (by decide) (by decide)).1 (by decide)

/-- Claim C9: a successful activation answers 200 with the found license's
client name and expiry date, and a days-remaining field equal to the
ceiling of (midnight of the expiry date minus the current time) divided by
one day. -/
theorem activate_success_response (now : Nat) (st : ServerState)
    (lk mid ip : Option String) (lic : License)
    (hfind : findLicense st (normKey (lk.getD "")) = some lic)
    (h : (activate now st lk mid ip).1.success = true) :
    (activate now st lk mid ip).1 =
      ⟨200, true, "Licence activée avec succès",
        some ⟨lic.client_name, lic.expires_at,
          mathCeilDiv ((dateToMs lic.expires_at : Int) - (now : Int)) (msPerDay : Int)⟩⟩ := by
  cases hv : (isFalsy lk || isFalsy mid) with
  | true =>
      rw [activate] at h
      simp [hv] at h
  | false =>
      simp only [activate, hv, Bool.false_eq_true, if_false, hfind] at h ⊢
      cases ha : lic.is_active with
      | false => simp [ha] at h
      | true =>
          simp only [ha, Bool.not_true, Bool.false_eq_true, if_false] at h ⊢
          by_cases hexp : dateToMs lic.expires_at < now
          · simp [hexp] at h
          · simp only [hexp, if_false] at h ⊢
            cases hb : (strTruthy lic.machine_id && lic.machine_id != some (mid.getD "")) with
            | true => simp [hb] at h
            | false => simp only [hb, Bool.false_eq_true, if_false]

theorem activate_success_response_witness :
    (activate 0 sampleState (some "HASNA-AAAA-BBBB-CCCC-DDDD") (some "PC-1") none).1 =
      ⟨200, true, "Licence activée avec succès",
        some ⟨sampleLicense.client_name, sampleLicense.expires_at,
          mathCeilDiv ((dateToMs sampleLicense.expires_at : Int) - (0 : Int))
            (msPerDay : Int)⟩⟩ :=
  activate_success_response 0 sampleState (some "HASNA-AAAA-BBBB-CCCC-DDDD")
    (some "PC-1") none sampleLicense (by decide) (by decide)

/-- Claim C1 is refuted on the code: `sampleLicense` expires on day 20, the
current time 1771200000 ms is noon of day 20 (same current date), the
license is active and unbound, yet activate answers 403 with the expired
message, because the code compares the current timestamp with the expiry
date's midnight timestamp rather than comparing dates. -/
theorem expiry_equal_date_rejected :
    sampleLicense.is_active = true ∧
    sampleLicense.machine_id = none ∧
    1771200000 / msPerDay = sampleLicense.expires_at ∧
    (activate 1771200000 sampleState
        (some "HASNA-AAAA-BBBB-CCCC-DDDD") (some "PC-1") none).1 =
      ⟨403, false, "Cette licence a expiré le 20", none⟩ := by
  refine ⟨rfl, rfl, rfl, ?_⟩
  decide

/-- Claim C1 (amended): the expiry comparison is on timestamps, not dates:
a license is treated as unexpired exactly when the current timestamp is at
most the midnight timestamp of `expires_at` (so an `expires_at` equal to
the current date is accepted only at exactly midnight), a license whose
`expires_at` is strictly before the current date is always treated as
expired, and verify computes valid as `is_active` AND that same timestamp
comparison. -/
theorem expiry_boundary_timestamps (now : Nat) (st : ServerState) (k m : String)
    (ip : Option String) (lic : License)
    (hk : k ≠ "") (hm : m ≠ "")
    (hfind : findLicense st (normKey k) = some lic)
    (hactive : lic.is_active = true) :
    (now ≤ dateToMs lic.expires_at → lic.machine_id = none →
      (activate now st (some k) (some m) ip).1.status = 200)
    ∧ (dateToMs lic.expires_at < now →
      (activate now st (some k) (some m) ip).1 =
        ⟨403, false, "Cette licence a expiré le " ++ toString lic.expires_at, none⟩)
    ∧ (lic.expires_at < now / msPerDay → dateToMs lic.expires_at < now)
    ∧ (∀ l2, st.licenses.find?
        (fun l => l.license_key == normKey k && l.machine_id == some m) = some l2 →
      (verify now st (some k) (some m)).1.valid =
        some (l2.is_active && decide (now ≤ dateToMs l2.expires_at))) := by
  refine ⟨?_, ?_, ?_, ?_⟩
  · intro hexp hunbound
    rw [activate_unbound_success now st k m ip lic hk hm hfind hactive hexp hunbound]
  · intro hlt
    simp [activate, isFalsy, hk, hm, hfind, hactive, hlt]
  · intro h
    simp only [dateToMs, msPerDay] at *
    omega
  · intro l2 hfind2
    simp [verify, isFalsy, hk, hm, hfind2]

theorem expiry_boundary_timestamps_witness :
    (activate 1728000000 sampleState
        (some "HASNA-AAAA-BBBB-CCCC-DDDD") (some "PC-1") none).1.status = 200 :=
  (expiry_boundary_timestamps 1728000000 sampleState "HASNA-AAAA-BBBB-CCCC-DDDD"
    "PC-1" none sampleLicense (by decide) (by decide) (by decide) rfl).1
    (by decide) rfl

/-- Claim C2: for an active, unexpired, unbound license, the first
activation with machine `m1` succeeds and binds `m1` (setting
`activated_at`), a repeat activation from `m1` succeeds without touching
the license table, and an activation from a different machine `m2` fails
403 and also leaves the license table unchanged — so the binding moves
from null to a concrete machine exactly once. -/
theorem machine_binding_lifecycle (now now2 now3 : Nat) (st : ServerState)
    (k m1 m2 : String) (ip : Option String) (lic : License)
    (hk : k ≠ "") (hm1 : m1 ≠ "") (hm2 : m2 ≠ "") (hne : m1 ≠ m2)
    (hfind : findLicense st (normKey k) = some lic)
    (hactive : lic.is_active = true)
    (hunbound : lic.machine_id = none)
    (hexp1 : now ≤ dateToMs lic.expires_at)
    (hexp2 : now2 ≤ dateToMs lic.expires_at)
    (hexp3 : now3 ≤ dateToMs lic.expires_at) :
    ((activate now st (some k) (some m1) ip).1.status = 200)
    ∧ (findLicense (activate now st (some k) (some m1) ip).2 (normKey k) =
        some { lic with machine_id := some m1, activated_at := some now })
    ∧ ((activate now2 (activate now st (some k) (some m1) ip).2
          (some k) (some m1) ip).1.status = 200)
    ∧ ((activate now2 (activate now st (some k) (some m1) ip).2
          (some k) (some m1) ip).2.licenses =
        (activate now st (some k) (some m1) ip).2.licenses)
    ∧ ((activate now3 (activate now st (some k) (some m1) ip).2
          (some k) (some m2) ip).1 =
        ⟨403, false,
          "Cette licence est déjà activée sur un autre ordinateur. Contactez le support pour la transférer.",
          none⟩)
    ∧ ((activate now3 (activate now st (some k) (some m1) ip).2
          (some k) (some m2) ip).2.licenses =
        (activate now st (some k) (some m1) ip).2.licenses) := by
  have hkeq : (lic.license_key == normKey k) = true := by
    have hf := hfind
    unfold findLicense at hf
    have h2 := List.find?_some hf
    exact h2
  have h1 := activate_unbound_success now st k m1 ip lic hk hm1 hfind hactive
    hexp1 hunbound
  rw [h1]
  have hfind1 : findLicense
      (addLog { st with licenses := st.licenses.map (bindUpd (normKey k) m1 now) }
        (logEntry k m1 ip "ACTIVATE" true "Activation réussie")) (normKey k) =
      some { lic with machine_id := some m1, activated_at := some now } := by
    rw [findLicense_addLog]
    show (st.licenses.map (bindUpd (normKey k) m1 now)).find?
        (fun l => l.license_key == normKey k) = _
    rw [find?_map_key (bindUpd (normKey k) m1 now)
      (bindUpd_key (normKey k) m1 now) (normKey k) st.licenses]
    unfold findLicense at hfind
    rw [hfind]
    simp [bindUpd, hkeq]
  have h2 := activate_bound_same now2 _ k m1 ip _ hk hm1 hfind1 hactive hexp2 rfl
  have h3 := activate_bound_other now3 _ k m2 m1 ip _ hk hm2 hfind1 hactive
    hexp3 rfl hm1 hne
  refine ⟨rfl, hfind1, ?_, ?_, ?_, ?_⟩
  · rw [h2]
  · rw [h2]
    rfl
  · rw [h3]
  · rw [h3]
    rfl

theorem machine_binding_lifecycle_witness :
    ((activate 0 sampleState (some "HASNA-AAAA-BBBB-CCCC-DDDD")
        (some "PC-001") none).1.status = 200)
    ∧ ((activate 0 (activate 0 sampleState (some "HASNA-AAAA-BBBB-CCCC-DDDD")
          (some "PC-001") none).2 (some "HASNA-AAAA-BBBB-CCCC-DDDD")
          (some "PC-002") none).1.status = 403) := by
  have h := machine_binding_lifecycle 0 0 0 sampleState
    "HASNA-AAAA-BBBB-CCCC-DDDD" "PC-001" "PC-002" none sampleLicense
    (by decide) (by decide) (by decide) (by decide) (by decide) rfl rfl
    (by decide) (by decide) (by decide)
  refine ⟨h.1, ?_⟩
  rw [h.2.2.2.2.1]
